import Mathlib

/-!
Verification of the safety-triage conversation engine of the
hemorrhoids patient chatbot (`patient_chatbot.py`).

Python text is modelled as `List Char`.  All definitions are executable
and translated directly from the source file; the only definitions taken
from the specification are the two `ConversationMemory` accessors, whose
implementation file (`conversation_memory.py`) is not part of the sources.
-/

/-- Helper turning a Lean string literal into the `List Char` text model. -/
def toL (s : String) : List Char := s.toList

/-- ASCII lowercasing of one character, the fragment of Python `str.lower`
relevant to the trigger patterns and warning indicators (all ASCII). -/
def lowerChar (c : Char) : Char :=
  if 65 ≤ c.toNat ∧ c.toNat ≤ 90 then Char.ofNat (c.toNat + 32) else c

/-- Python `str.lower` on the text model. -/
def lowerStr (s : List Char) : List Char := s.map lowerChar

/-- Python `sub in s` substring test. -/
def containsSub (pat : List Char) : List Char → Bool
  | [] => pat.isEmpty
  | c :: t => pat.isPrefixOf (c :: t) || containsSub pat t

/-- The warning-sign glyph U+26A0, first codepoint of the marker used by
`PatientChatbot._deduplicate_warnings`. -/
def warnSign : Char := Char.ofNat 9888

/-- The variation selector U+FE0F, second codepoint of the warning marker. -/
def varSel : Char := Char.ofNat 65039

/-- The two-codepoint warning marker string that `_deduplicate_warnings`
splits on. -/
def warnMarker : List Char := [warnSign, varSel]

/-- Python `response.split(warnMarker)`: split at each non-overlapping
occurrence of the marker, scanning left to right. -/
def splitWarn : List Char → List (List Char)
  | [] => [[]]
  | [c] => [[c]]
  | c1 :: c2 :: t =>
    if c1 = warnSign ∧ c2 = varSel then
      [] :: splitWarn t
    else
      match splitWarn (c2 :: t) with
      | [] => [[c1]]
      | p :: ps => (c1 :: p) :: ps

/-- Number of non-overlapping occurrences of the warning marker,
counted the way Python `split` counts them. -/
def occCount : List Char → Nat
  | [] => 0
  | [_] => 0
  | c1 :: c2 :: t =>
    if c1 = warnSign ∧ c2 = varSel then occCount t + 1 else occCount (c2 :: t)

/-- The content segment preceding the first occurrence of the warning
marker (the whole text when there is no occurrence). -/
def beforeFirstMarker : List Char → List Char
  | [] => []
  | [c] => [c]
  | c1 :: c2 :: t =>
    if c1 = warnSign ∧ c2 = varSel then [] else c1 :: beforeFirstMarker (c2 :: t)

/-- The text following the last occurrence of the warning marker
(meaningful only when at least one occurrence exists). -/
def afterLastMarker : List Char → List Char
  | [] => []
  | [c] => [c]
  | c1 :: c2 :: t =>
    if c1 = warnSign ∧ c2 = varSel then
      (if occCount t = 0 then t else afterLastMarker t)
    else afterLastMarker (c2 :: t)

/-- `PatientChatbot._deduplicate_warnings` from the source: when the reply
splits into more than two parts at the warning marker, keep the first part,
a blank line, and the marker plus the final part; otherwise return the
reply unchanged. -/
def deduplicateWarnings (response : List Char) : List Char :=
  let parts := splitWarn response
  if 2 < parts.length then
    parts.headD [] ++ '\n' :: '\n' :: warnMarker ++ parts.getLastD []
  else response

theorem splitWarn_ne_nil (s : List Char) : splitWarn s ≠ [] := by
  induction s using splitWarn.induct with
  | case1 => simp [splitWarn]
  | case2 c => simp [splitWarn]
  | case3 c1 c2 t h ih => simp [splitWarn, h]
  | case4 c1 c2 t h hm ih => simp [splitWarn, h, hm]
  | case5 c1 c2 t h p ps hm ih => simp [splitWarn, h, hm]

theorem length_splitWarn (s : List Char) :
    (splitWarn s).length = occCount s + 1 := by
  induction s using splitWarn.induct with
  | case1 => simp [splitWarn, occCount]
  | case2 c => simp [splitWarn, occCount]
  | case3 c1 c2 t h ih => simp [splitWarn, occCount, h, ih]
  | case4 c1 c2 t h hm ih =>
    exact absurd hm (splitWarn_ne_nil _)
  | case5 c1 c2 t h p ps hm ih =>
    simp only [splitWarn, occCount, if_neg h, hm] at ih ⊢
    simpa using ih

theorem headD_splitWarn (s : List Char) :
    (splitWarn s).headD [] = beforeFirstMarker s := by
  induction s using splitWarn.induct with
  | case1 => simp [splitWarn, beforeFirstMarker]
  | case2 c => simp [splitWarn, beforeFirstMarker]
  | case3 c1 c2 t h ih => simp [splitWarn, beforeFirstMarker, h]
  | case4 c1 c2 t h hm ih =>
    exact absurd hm (splitWarn_ne_nil _)
  | case5 c1 c2 t h p ps hm ih =>
    simp only [splitWarn, beforeFirstMarker, if_neg h, hm] at ih ⊢
    simpa using ih

theorem getLastD_of_ne_nil {α : Type} (l : List α) (h : l ≠ []) (d₁ d₂ : α) :
    l.getLastD d₁ = l.getLastD d₂ := by
  cases l with
  | nil => exact absurd rfl h
  | cons a t => rw [List.getLastD_cons, List.getLastD_cons]

theorem splitWarn_of_occCount_zero (s : List Char) (h : occCount s = 0) :
    splitWarn s = [s] := by
  induction s using splitWarn.induct with
  | case1 => simp [splitWarn]
  | case2 c => simp [splitWarn]
  | case3 c1 c2 t hm ih =>
    rw [occCount, if_pos hm] at h
    exact absurd h (by simp)
  | case4 c1 c2 t hm heq ih =>
    exact absurd heq (splitWarn_ne_nil _)
  | case5 c1 c2 t hm p ps heq ih =>
    rw [occCount, if_neg hm] at h
    rw [splitWarn, if_neg hm, heq]
    have := ih h
    rw [heq] at this
    simp at this
    simp [this]

theorem getLastD_splitWarn (s : List Char) (h : occCount s ≠ 0) :
    (splitWarn s).getLastD [] = afterLastMarker s := by
  induction s using splitWarn.induct with
  | case1 => simp [occCount] at h
  | case2 c => simp [occCount] at h
  | case3 c1 c2 t hm ih =>
    rw [splitWarn, if_pos hm, afterLastMarker, if_pos hm]
    rw [List.getLastD_cons]
    by_cases h0 : occCount t = 0
    · rw [if_pos h0, splitWarn_of_occCount_zero t h0]
      simp
    · rw [if_neg h0, getLastD_of_ne_nil _ (splitWarn_ne_nil t) [] []]
      · exact ih h0
  | case4 c1 c2 t hm heq ih =>
    exact absurd heq (splitWarn_ne_nil _)
  | case5 c1 c2 t hm p ps heq ih =>
    rw [occCount, if_neg hm] at h
    rw [splitWarn, if_neg hm, heq, afterLastMarker, if_neg hm]
    have hlen : (splitWarn (c2 :: t)).length = occCount (c2 :: t) + 1 :=
      length_splitWarn _
    rw [heq] at hlen
    have hps : ps ≠ [] := by
      intro hnil
      rw [hnil] at hlen
      simp at hlen
      exact h hlen
    have := ih h
    rw [heq] at this
    calc ((c1 :: p) :: ps).getLastD [] = ps.getLastD (c1 :: p) := by
          rw [List.getLastD_cons]
      _ = ps.getLastD p := getLastD_of_ne_nil ps hps _ _
      _ = (p :: ps).getLastD [] := by rw [List.getLastD_cons]
      _ = afterLastMarker (c2 :: t) := this

/-- The first part of a split is marker-free. -/
theorem occCount_beforeFirstMarker (s : List Char) :
    occCount (beforeFirstMarker s) = 0 := by
  induction s using splitWarn.induct with
  | case1 => simp [beforeFirstMarker, occCount]
  | case2 c => simp [beforeFirstMarker, occCount]
  | case3 c1 c2 t hm ih => simp [beforeFirstMarker, occCount, hm]
  | case4 c1 c2 t hm heq ih =>
    exact absurd heq (splitWarn_ne_nil _)
  | case5 c1 c2 t hm p ps heq ih =>
    rw [beforeFirstMarker, if_neg hm]
    rcases ht : beforeFirstMarker (c2 :: t) with _ | ⟨d, u⟩
    · simp [occCount]
    · have hd : d = c2 := by
        cases t with
        | nil => rw [beforeFirstMarker] at ht; exact (List.cons.injEq _ _ _ _ ▸ ht).1.symm
        | cons c3 t' =>
          rw [beforeFirstMarker] at ht
          by_cases hm2 : c2 = warnSign ∧ c3 = varSel
          · rw [if_pos hm2] at ht; exact absurd ht (by simp)
          · rw [if_neg hm2] at ht
            exact ((List.cons.injEq _ _ _ _).mp ht).1.symm
      rw [occCount]
      have hnm : ¬ (c1 = warnSign ∧ d = varSel) := by
        rw [hd]; exact hm
      rw [if_neg hnm]
      have := ih
      rw [ht] at this
      exact this

/-- The text after the last marker is marker-free. -/
theorem occCount_afterLastMarker (s : List Char) :
    occCount (afterLastMarker s) = 0 := by
  induction s using splitWarn.induct with
  | case1 => simp [afterLastMarker, occCount]
  | case2 c => simp [afterLastMarker, occCount]
  | case3 c1 c2 t hm ih =>
    rw [afterLastMarker, if_pos hm]
    by_cases h0 : occCount t = 0
    · rw [if_pos h0]; exact h0
    · rw [if_neg h0]; exact ih
  | case4 c1 c2 t hm heq ih =>
    exact absurd heq (splitWarn_ne_nil _)
  | case5 c1 c2 t hm p ps heq ih =>
    rw [afterLastMarker, if_neg hm]
    exact ih

theorem occCount_canonical_tail (q : List Char) (hq : occCount q = 0) :
    occCount ('\n' :: '\n' :: warnSign :: varSel :: q) = 1 := by
  have h1 : ¬ (('\n' : Char) = warnSign ∧ ('\n' : Char) = varSel) := by decide
  have h2 : ¬ (('\n' : Char) = warnSign ∧ warnSign = varSel) := by decide
  rw [occCount, if_neg h1, occCount, if_neg h2, occCount, if_pos ⟨rfl, rfl⟩, hq]

theorem occCount_append_canonical (p q : List Char)
    (hp : occCount p = 0) (hq : occCount q = 0) :
    occCount (p ++ '\n' :: '\n' :: warnSign :: varSel :: q) = 1 := by
  induction p with
  | nil => exact occCount_canonical_tail q hq
  | cons c p' ih =>
    cases p' with
    | nil =>
      have h1 : ¬ (c = warnSign ∧ ('\n' : Char) = varSel) := by
        intro h; exact absurd h.2 (by decide)
      rw [List.cons_append, List.nil_append, occCount, if_neg h1]
      exact occCount_canonical_tail q hq
    | cons d p'' =>
      by_cases hm : c = warnSign ∧ d = varSel
      · rw [occCount, if_pos hm] at hp
        exact absurd hp (by simp)
      · rw [occCount, if_neg hm] at hp
        have := ih hp
        rw [List.cons_append, List.cons_append, occCount, if_neg hm]
        rw [List.cons_append] at this
        exact this

/-- Unfolding equation for `deduplicateWarnings` in the collapsing case. -/
theorem deduplicateWarnings_of_big (s : List Char)
    (h : 2 < (splitWarn s).length) :
    deduplicateWarnings s =
      beforeFirstMarker s ++ '\n' :: '\n' :: warnMarker ++ afterLastMarker s := by
  have hocc : occCount s ≠ 0 := by
    intro h0
    rw [length_splitWarn, h0] at h
    exact absurd h (by simp)
  rw [deduplicateWarnings]
  simp only [if_pos h]
  rw [headD_splitWarn, getLastD_splitWarn s hocc]

/-- Unfolding equation for `deduplicateWarnings` in the unchanged case. -/
theorem deduplicateWarnings_of_small (s : List Char)
    (h : ¬ 2 < (splitWarn s).length) :
    deduplicateWarnings s = s := by
  rw [deduplicateWarnings]
  simp only [if_neg h]

/-- C4: the warning deduplication function is idempotent: for every input
text `x`, `deduplicateWarnings (deduplicateWarnings x) = deduplicateWarnings x`. -/
theorem deduplicate_warnings_idempotent (x : List Char) :
    deduplicateWarnings (deduplicateWarnings x) = deduplicateWarnings x := by
  by_cases hlen : 2 < (splitWarn x).length
  · have hy := deduplicateWarnings_of_big x hlen
    have hocc1 : occCount (deduplicateWarnings x) = 1 := by
      rw [hy]
      have hassoc :
          beforeFirstMarker x ++ '\n' :: '\n' :: warnMarker ++ afterLastMarker x
            = beforeFirstMarker x ++
                '\n' :: '\n' :: warnSign :: varSel :: afterLastMarker x := by
        simp [warnMarker, List.append_assoc]
      rw [hassoc]
      exact occCount_append_canonical _ _
        (occCount_beforeFirstMarker x) (occCount_afterLastMarker x)
    have hsmall : ¬ 2 < (splitWarn (deduplicateWarnings x)).length := by
      rw [length_splitWarn, hocc1]
      simp
    exact deduplicateWarnings_of_small _ hsmall
  · have h := deduplicateWarnings_of_small x hlen
    rw [h, h]

/-- C8 (amended): when the reply holds more than one marker occurrence,
`deduplicateWarnings` returns the content before the first occurrence,
then a blank-line separator, then the last warning occurrence (final
marker plus all text after it); with at most one occurrence the reply is
returned unchanged. -/
theorem deduplicate_warnings_collapse (s : List Char) :
    (2 ≤ occCount s →
      deduplicateWarnings s =
        beforeFirstMarker s ++ '\n' :: '\n' :: warnMarker ++ afterLastMarker s)
    ∧ (occCount s ≤ 1 → deduplicateWarnings s = s) := by
  constructor
  · intro h2
    apply deduplicateWarnings_of_big
    rw [length_splitWarn]
    omega
  · intro h1
    apply deduplicateWarnings_of_small
    rw [length_splitWarn]
    omega

/-- C8 counterexample: on a reply with two marker occurrences the result is
not the first content segment directly followed by the last warning
occurrence, because the code inserts a blank line in between. -/
theorem deduplicate_warnings_counterexample :
    2 ≤ occCount (toL "A" ++ warnMarker ++ toL "B" ++ warnMarker ++ toL "C")
    ∧ deduplicateWarnings (toL "A" ++ warnMarker ++ toL "B" ++ warnMarker ++ toL "C")
        ≠ beforeFirstMarker (toL "A" ++ warnMarker ++ toL "B" ++ warnMarker ++ toL "C")
            ++ warnMarker
            ++ afterLastMarker (toL "A" ++ warnMarker ++ toL "B" ++ warnMarker ++ toL "C") := by
  decide

/-- Witness for the amended C8 theorem at a concrete two-marker reply. -/
theorem deduplicate_warnings_collapse_witness :
    deduplicateWarnings (toL "A" ++ warnMarker ++ toL "B" ++ warnMarker ++ toL "C")
      = beforeFirstMarker (toL "A" ++ warnMarker ++ toL "B" ++ warnMarker ++ toL "C")
          ++ '\n' :: '\n' :: warnMarker
          ++ afterLastMarker (toL "A" ++ warnMarker ++ toL "B" ++ warnMarker ++ toL "C") :=
  (deduplicate_warnings_collapse _).1 (by decide)

/-- Matching one literal at the current position; returns the remainder
on success. -/
def matchHere : List Char → List Char → Option (List Char)
  | [], s => some s
  | _ :: _, [] => none
  | a :: as, c :: t => if a = c then matchHere as t else none

/-- One pattern slot: the alternative literal strings of a regex group. -/
abbrev Seg := List (List Char)

/-- Remainders left after matching one of the slot alternatives at the
current position. -/
def remaindersHere (seg : Seg) (s : List Char) : List (List Char) :=
  seg.filterMap (fun lit => matchHere lit s)

/-- Remainders after matching a slot at any position reachable through a
gap that contains no newline (the Python regex dot does not match a
newline). -/
def remaindersNoNL (seg : Seg) : List Char → List (List Char)
  | [] => remaindersHere seg []
  | c :: t =>
    remaindersHere seg (c :: t) ++ (if c = '\n' then [] else remaindersNoNL seg t)

/-- Remainders after matching a slot anywhere in the text (unrestricted
leading gap, as for the first slot under `re.search`). -/
def remaindersAnywhere (seg : Seg) : List Char → List (List Char)
  | [] => remaindersHere seg []
  | c :: t => remaindersHere seg (c :: t) ++ remaindersAnywhere seg t

/-- Matching the remaining slots of an alternative, each separated from
the previous one by a newline-free gap. -/
def matchRest : List Seg → List Char → Bool
  | [], _ => true
  | seg :: rest, s => (remaindersNoNL seg s).any (fun r => matchRest rest r)

/-- One regex alternative: a sequence of literal slots separated by `.*`. -/
def matchAlt (s : List Char) : List Seg → Bool
  | [] => true
  | seg :: rest => (remaindersAnywhere seg s).any (fun r => matchRest rest r)

/-- Python `re.search` on the regex fragment used by the red-flag table:
a top-level alternation of `.*`-separated literal-group sequences. -/
def matchPattern (s : List Char) (alts : List (List Seg)) : Bool :=
  alts.any (fun alt => matchAlt s alt)

/-- The `RED_FLAG_PATTERNS` table from the source, in dictionary order.
Each regex is transcribed as its alternation structure: for example
`(no|haven't|havent).*(bowel movement|poop|stool).*(3|4|5|6|7) day` is a
single alternative of three slots, while `black stool|tarry|dark.*stool|coffee ground`
has four alternatives of which the third has two slots. -/
def RED_FLAG_PATTERNS : List (String × List (List Seg)) :=
  [ ("severe_pain",
      [[[toL "severe pain"]], [[toL "excruciating"]], [[toL "unbearable"]],
       [[toL "extreme pain"]], [[toL "terrible pain"]]]),
    ("heavy_bleeding",
      [[[toL "heavy bleed"]], [[toL "lots of blood"]], [[toL "pouring"]],
       [[toL "filling toilet"]], [[toL "gushing"]], [[toL "blood clot"]]]),
    ("fever",
      [[[toL "fever"]], [[toL "temperature"]], [[toL "chills"]],
       [[toL "hot and cold"]]]),
    ("prolonged_constipation",
      [[[toL "no", toL "haven\x27t", toL "havent"],
        [toL "bowel movement", toL "poop", toL "stool"],
        [toL "3 day", toL "4 day", toL "5 day", toL "6 day", toL "7 day"]]]),
    ("black_stool",
      [[[toL "black stool"]], [[toL "tarry"]],
       [[toL "dark"], [toL "stool"]], [[toL "coffee ground"]]]),
    ("dizziness",
      [[[toL "dizz"]], [[toL "faint"]], [[toL "lightheaded"]],
       [[toL "passed out"]], [[toL "weak and tired"]]]) ]

/-- `check_for_red_flags` from the source: lowercase the message once,
then collect, in table order, the names of the categories whose pattern
matches. -/
def check_for_red_flags (user_message : List Char) : List String :=
  (RED_FLAG_PATTERNS.filter
      (fun pr => matchPattern (lowerStr user_message) pr.2)).map
    (fun pr => pr.1)

theorem toNat_ofNat_shifted (n : Nat) (h1 : 65 ≤ n) (h2 : n ≤ 90) :
    (Char.ofNat (n + 32)).toNat = n + 32 := by
  interval_cases n <;> decide

theorem lowerChar_idem (c : Char) : lowerChar (lowerChar c) = lowerChar c := by
  unfold lowerChar
  by_cases h : 65 ≤ c.toNat ∧ c.toNat ≤ 90
  · rw [if_pos h, if_neg]
    rw [toNat_ofNat_shifted c.toNat h.1 h.2]
    omega
  · rw [if_neg h, if_neg h]

theorem lowerStr_idem (s : List Char) : lowerStr (lowerStr s) = lowerStr s := by
  unfold lowerStr
  rw [List.map_map]
  exact List.map_congr_left (fun c _ => lowerChar_idem c)

/-- The siren glyph U+1F6A8 used by the critical warning template. -/
def siren : Char := Char.ofNat 128680

/-- The critical (same-day / ER) warning template returned by
`create_red_flag_warning`, transcribed from the source. -/
def criticalWarningText : List Char :=
  toL "\n\n" ++ List.replicate 60 '=' ++ toL "\n" ++ [siren]
    ++ toL " **URGENT MEDICAL ATTENTION NEEDED** " ++ [siren] ++ toL "\n"
    ++ List.replicate 60 '='
    ++ toL "\n\nBased on your symptoms, you need to see a doctor TODAY. Go to urgent care or the emergency room if:\n- You\x27re experiencing heavy bleeding\n- You have black or tarry stools\n- You feel dizzy or weak\n- You have severe pain\n\nThese could be signs of serious bleeding or other conditions that need immediate evaluation. Please don\x27t wait."

/-- The non-urgent (1-2 day follow-up) warning template returned by
`create_red_flag_warning`, transcribed from the source. -/
def nonUrgentWarningText : List Char :=
  toL "\n\n" ++ warnMarker
    ++ toL " **Please contact your doctor within 1-2 days:**\n\nThe symptoms you\x27ve described should be evaluated by your healthcare provider to make sure everything is okay and to adjust your treatment plan if needed."

/-- The critical tier of red-flag categories (`critical` set in the source). -/
def criticalCategories : List String :=
  ["heavy_bleeding", "black_stool", "severe_pain", "dizziness"]

/-- The non-urgent tier of red-flag categories (`non_urgent` set in the source). -/
def nonUrgentCategories : List String :=
  ["prolonged_constipation", "fever"]

/-- All six category names of `RED_FLAG_PATTERNS`. -/
def allCategories : List String :=
  ["severe_pain", "heavy_bleeding", "fever", "prolonged_constipation",
   "black_stool", "dizziness"]

/-- `create_red_flag_warning` from the source: empty text for no flags,
the critical template when any critical category is present, else the
non-urgent template when any non-urgent category is present, else empty. -/
def create_red_flag_warning (red_flags : List String) : List Char :=
  if red_flags.isEmpty then []
  else if red_flags.any (fun flag => criticalCategories.contains flag) then
    criticalWarningText
  else if red_flags.any (fun flag => nonUrgentCategories.contains flag) then
    nonUrgentWarningText
  else []

/-- C2: for every matched category set, any critical category forces the
single same-day/ER template regardless of what else matched; otherwise
any non-urgent category forces the 1-2 day follow-up template; otherwise
the composed warning is empty text. -/
theorem create_red_flag_warning_two_tier (red_flags : List String) :
    (red_flags.any (fun flag => criticalCategories.contains flag) = true →
      create_red_flag_warning red_flags = criticalWarningText)
    ∧ (red_flags.any (fun flag => criticalCategories.contains flag) = false →
        red_flags.any (fun flag => nonUrgentCategories.contains flag) = true →
        create_red_flag_warning red_flags = nonUrgentWarningText)
    ∧ (red_flags.any (fun flag => criticalCategories.contains flag) = false →
        red_flags.any (fun flag => nonUrgentCategories.contains flag) = false →
        create_red_flag_warning red_flags = []) := by
  refine ⟨?_, ?_, ?_⟩
  · intro hc
    have hne : red_flags ≠ [] := by
      rintro rfl
      simp at hc
    simp at hc
    simp [create_red_flag_warning, hne, hc]
  · intro hc hnu
    have hne : red_flags ≠ [] := by
      rintro rfl
      simp at hnu
    simp at hc hnu
    have hcrit : ¬ ∃ x ∈ red_flags, x ∈ criticalCategories := by
      rintro ⟨x, hx, hxc⟩
      exact hc x hx hxc
    simp [create_red_flag_warning, hne, hcrit, hnu]
  · intro hc hnu
    simp at hc hnu
    by_cases hne : red_flags = []
    · subst hne
      simp [create_red_flag_warning]
    · have hcrit : ¬ ∃ x ∈ red_flags, x ∈ criticalCategories := by
        rintro ⟨x, hx, hxc⟩
        exact hc x hx hxc
      have hnon : ¬ ∃ x ∈ red_flags, x ∈ nonUrgentCategories := by
        rintro ⟨x, hx, hxc⟩
        exact hnu x hx hxc
      simp [create_red_flag_warning, hne, hcrit, hnon]

/-- Witness for C2 at a concrete mixed-tier category set. -/
theorem create_red_flag_warning_two_tier_witness :
    create_red_flag_warning ["fever", "dizziness"] = criticalWarningText :=
  (create_red_flag_warning_two_tier _).1 (by decide)

/-- C10: a non-empty list of flags none of which is a known category
yields empty warning text (the composer is total, so no error is raised). -/
theorem create_red_flag_warning_unknown_flags (red_flags : List String)
    (hne : red_flags ≠ [])
    (hunk : ∀ f ∈ red_flags, allCategories.contains f = false) :
    create_red_flag_warning red_flags = [] := by
  have key : ∀ f : String, allCategories.contains f = false →
      criticalCategories.contains f = false
        ∧ nonUrgentCategories.contains f = false := by
    intro f hf
    constructor
    · by_contra hc
      rw [Bool.not_eq_false] at hc
      have hmem : f ∈ criticalCategories := by simpa using hc
      simp only [criticalCategories, List.mem_cons, List.not_mem_nil, or_false] at hmem
      rcases hmem with h | h | h | h <;> subst h <;> simp [allCategories] at hf
    · by_contra hc
      rw [Bool.not_eq_false] at hc
      have hmem : f ∈ nonUrgentCategories := by simpa using hc
      simp only [nonUrgentCategories, List.mem_cons, List.not_mem_nil, or_false] at hmem
      rcases hmem with h | h <;> subst h <;> simp [allCategories] at hf
  have hc : red_flags.any (fun flag => criticalCategories.contains flag) = false := by
    rw [List.any_eq_false]
    intro f hf
    simpa using (key f (hunk f hf)).1
  have hnu : red_flags.any (fun flag => nonUrgentCategories.contains flag) = false := by
    rw [List.any_eq_false]
    intro f hf
    simpa using (key f (hunk f hf)).2
  exact (create_red_flag_warning_two_tier red_flags).2.2 hc hnu

/-- Witness for C10 at a concrete unknown flag name. -/
theorem create_red_flag_warning_unknown_flags_witness :
    create_red_flag_warning ["weight_loss"] = [] :=
  create_red_flag_warning_unknown_flags ["weight_loss"] (by decide) (by decide)

set_option maxRecDepth 8000 in
/-- C6: the message about black tarry stools and dizziness classifies to
exactly the two categories black_stool and dizziness, and composing a
warning from that set yields the critical same-day/ER template. -/
theorem classify_and_compose_black_tarry_dizzy :
    check_for_red_flags (toL "I\x27m passing black tarry stools and feel dizzy")
        = ["black_stool", "dizziness"]
    ∧ create_red_flag_warning
        (check_for_red_flags (toL "I\x27m passing black tarry stools and feel dizzy"))
        = criticalWarningText := by
  constructor
  · decide
  · decide

/-- C7: the classifier is a total pure function of the message text: a
message whose lowercase form matches no trigger pattern yields the empty
category list, and the result depends only on the lowercased message. -/
theorem check_for_red_flags_total_case_insensitive (m : List Char) :
    ((∀ pr ∈ RED_FLAG_PATTERNS, matchPattern (lowerStr m) pr.2 = false) →
      check_for_red_flags m = [])
    ∧ check_for_red_flags (lowerStr m) = check_for_red_flags m := by
  constructor
  · intro h
    unfold check_for_red_flags
    have hfil : RED_FLAG_PATTERNS.filter
        (fun pr => matchPattern (lowerStr m) pr.2) = [] := by
      rw [List.filter_eq_nil_iff]
      intro pr hpr
      simp [h pr hpr]
    rw [hfil]
    simp
  · unfold check_for_red_flags
    rw [lowerStr_idem]

set_option maxRecDepth 8000 in
/-- Witness for C7 at a concrete harmless message. -/
theorem check_for_red_flags_total_case_insensitive_witness :
    check_for_red_flags (toL "What foods have fiber?") = [] :=
  (check_for_red_flags_total_case_insensitive _).1 (by decide)

/-- The warning-indicator phrases of `PatientChatbot._has_warning`. -/
def warning_indicators : List (List Char) :=
  [toL "contact your doctor", toL "see a doctor", toL "medical attention",
   toL "urgent care", toL "emergency", toL "healthcare provider"]

/-- `PatientChatbot._has_warning` from the source: whether the lowercased
reply contains any warning-indicator phrase. -/
def _has_warning (response : List Char) : Bool :=
  warning_indicators.any (fun ind => containsSub ind (lowerStr response))

/-- One stored conversation message: role, content and the red-flag
metadata recorded with patient messages (empty for assistant messages). -/
structure Message where
  role : String
  content : List Char
  red_flags : List String
deriving DecidableEq

/-- Modelled from the spec: the in-memory state of `ConversationMemory`
(file `conversation_memory.py` is not among the sources), holding the
append-only log of the session. -/
structure ConversationMemory where
  current_conversation : List Message
deriving DecidableEq

/-- Modelled from the spec: `ConversationMemory.add_message` appends one
immutable message to the in-memory log and never edits prior entries. -/
def ConversationMemory.add_message (m : ConversationMemory) (role : String)
    (content : List Char) (flags : List String) : ConversationMemory :=
  ⟨m.current_conversation ++ [⟨role, content, flags⟩]⟩

/-- Modelled from the spec: `ConversationMemory.get_recent_context`
returns the last `max_messages` entries of the session log, oldest
first. -/
def ConversationMemory.get_recent_context (m : ConversationMemory)
    (max_messages : Nat) : List Message :=
  m.current_conversation.drop (m.current_conversation.length - max_messages)

/-- The chatbot state: the conversation memory plus the recent-context
snapshot that `PatientChatbot.__init__` stores once at construction. -/
structure PatientChatbot where
  memory : ConversationMemory
  recent_context : List Message
deriving DecidableEq

/-- `PatientChatbot.__init__`: fetch the bounded recent context once and
store it on the instance. -/
def PatientChatbot.init (memory : ConversationMemory) : PatientChatbot :=
  ⟨memory, memory.get_recent_context 6⟩

/-- Python content truncation `content[:200] + "..."` for long messages. -/
def truncateContent (content : List Char) : List Char :=
  if 200 < content.length then content.take 200 ++ toL "..." else content

/-- `PatientChatbot._format_conversation_context` from the source, read
from the stored `recent_context` snapshot. -/
def _format_conversation_context (cb : PatientChatbot) : List Char :=
  if cb.recent_context.isEmpty then toL "First conversation with this patient."
  else
    (cb.recent_context.drop (cb.recent_context.length - 4)).foldl
      (fun ctx msg =>
        ctx ++ (if msg.role = "user" then toL "Patient" else toL "You")
          ++ toL ": " ++ truncateContent msg.content ++ toL "\n")
      (toL "Recent history:\n")

/-- The request assembled for the external generation collaborator by the
input map of the `rag_chain`: question, retrieved document context,
conversation-context string and raw chat history. -/
structure GenRequest where
  question : List Char
  context : List Char
  conversation_context : List Char
  chat_history : List Message

/-- Assembly of the generation request, mirroring the input lambdas of
the `rag_chain`. -/
def buildRequest (retrieve : List Char → List Char) (cb : PatientChatbot)
    (user_message : List Char) : GenRequest :=
  { question := user_message
  , context := retrieve user_message
  , conversation_context := _format_conversation_context cb
  , chat_history := cb.memory.current_conversation }

/-- `PatientChatbot.chat` from the source. The external generation
collaborator is a parameter `gen` that may fail with an opaque error; a
Python exception from the chain invocation corresponds to `Except.error`
and propagates before any memory mutation. -/
def PatientChatbot.chat {E : Type} (gen : GenRequest → Except E (List Char))
    (retrieve : List Char → List Char) (cb : PatientChatbot)
    (user_message : List Char) : Except E (List Char) × PatientChatbot :=
  let red_flags := check_for_red_flags user_message
  match gen (buildRequest retrieve cb user_message) with
  | Except.error e => (Except.error e, cb)
  | Except.ok raw =>
    let response := deduplicateWarnings raw
    let response :=
      if red_flags.isEmpty then response
      else if _has_warning response then response
      else response ++ create_red_flag_warning red_flags
    let memory := (cb.memory.add_message "user" user_message red_flags).add_message
        "assistant" response []
    (Except.ok response, { cb with memory := memory })

/-- Reply of a successful turn, as a single conditional expression. -/
theorem chat_ok_reply {E : Type} (gen : GenRequest → Except E (List Char))
    (retrieve : List Char → List Char) (cb : PatientChatbot)
    (user_message raw : List Char)
    (hgen : gen (buildRequest retrieve cb user_message) = Except.ok raw) :
    (PatientChatbot.chat gen retrieve cb user_message).1
      = Except.ok
          (if (check_for_red_flags user_message).isEmpty then
            deduplicateWarnings raw
          else if _has_warning (deduplicateWarnings raw) then
            deduplicateWarnings raw
          else
            deduplicateWarnings raw
              ++ create_red_flag_warning (check_for_red_flags user_message)) := by
  simp only [PatientChatbot.chat, hgen]

/-- C1: after deduplication of the generated reply, the classifier-driven
warning is appended exactly when the matched red-flag set is non-empty
and the deduplicated reply holds no warning-indicator phrase; when the
deduplicated reply already holds an indicator, the final reply is the
deduplicated reply unchanged, so a generated and an appended warning
never coexist. -/
theorem chat_appends_warning_iff {E : Type}
    (gen : GenRequest → Except E (List Char))
    (retrieve : List Char → List Char) (cb : PatientChatbot)
    (user_message raw : List Char)
    (hgen : gen (buildRequest retrieve cb user_message) = Except.ok raw) :
    (check_for_red_flags user_message ≠ [] →
        _has_warning (deduplicateWarnings raw) = false →
        (PatientChatbot.chat gen retrieve cb user_message).1
          = Except.ok (deduplicateWarnings raw
              ++ create_red_flag_warning (check_for_red_flags user_message)))
    ∧ (_has_warning (deduplicateWarnings raw) = true →
        (PatientChatbot.chat gen retrieve cb user_message).1
          = Except.ok (deduplicateWarnings raw))
    ∧ (check_for_red_flags user_message = [] →
        (PatientChatbot.chat gen retrieve cb user_message).1
          = Except.ok (deduplicateWarnings raw)) := by
  rw [chat_ok_reply gen retrieve cb user_message raw hgen]
  refine ⟨?_, ?_, ?_⟩
  · intro hne hw
    simp [List.isEmpty_iff, hne, hw]
  · intro hw
    by_cases hne : check_for_red_flags user_message = []
    · simp [List.isEmpty_iff, hne]
    · simp [List.isEmpty_iff, hne, hw]
  · intro hne
    simp [List.isEmpty_iff, hne]

/-- Witness for C1: a red-flagged message with a warning-free generated
reply gets the composed warning appended. -/
theorem chat_appends_warning_iff_witness :
    (PatientChatbot.chat (E := Unit) (fun _ => Except.ok (toL "ok"))
        (fun _ => []) (PatientChatbot.init ⟨[]⟩) (toL "I feel faint")).1
      = Except.ok (deduplicateWarnings (toL "ok")
          ++ create_red_flag_warning (check_for_red_flags (toL "I feel faint"))) :=
  (chat_appends_warning_iff _ _ _ _ _ rfl).1 (by decide) (by decide)

/-- C3: when the external generation call fails, the turn fails with the
same error, no reply is produced and the chatbot state, in particular the
conversation memory, is left exactly unchanged. -/
theorem chat_generation_failure_leaves_memory {E : Type}
    (gen : GenRequest → Except E (List Char))
    (retrieve : List Char → List Char) (cb : PatientChatbot)
    (user_message : List Char) (e : E)
    (hgen : gen (buildRequest retrieve cb user_message) = Except.error e) :
    PatientChatbot.chat gen retrieve cb user_message = (Except.error e, cb) := by
  simp only [PatientChatbot.chat, hgen]

/-- Witness for C3 at a concrete failing generation collaborator. -/
theorem chat_generation_failure_leaves_memory_witness :
    PatientChatbot.chat (fun _ => Except.error 7) (fun _ => [])
        (PatientChatbot.init ⟨[]⟩) (toL "hello")
      = (Except.error 7, PatientChatbot.init ⟨[]⟩) :=
  chat_generation_failure_leaves_memory _ _ _ _ _ rfl

/-- The conversation-context string the specification describes: re-fetch
the bounded recent context from ConversationMemory and format it. -/
def contextIfRefetched (cb : PatientChatbot) : List Char :=
  _format_conversation_context ⟨cb.memory, cb.memory.get_recent_context 6⟩

set_option maxRecDepth 8000 in
/-- C5 counterexample: after one successful turn, the conversation
context the next turn would supply to generation still comes from the
construction-time snapshot and differs from the context recomputed from
the current ConversationMemory log. -/
theorem chat_context_not_refetched_counterexample :
    (buildRequest (fun _ => [])
        ((PatientChatbot.chat (E := Unit) (fun _ => Except.ok (toL "hi"))
            (fun _ => []) (PatientChatbot.init ⟨[]⟩) (toL "hello")).2)
        (toL "next")).conversation_context
      ≠ contextIfRefetched
          ((PatientChatbot.chat (E := Unit) (fun _ => Except.ok (toL "hi"))
              (fun _ => []) (PatientChatbot.init ⟨[]⟩) (toL "hello")).2) := by
  decide

/-- C5 (amended): the bounded recent context is fetched from
ConversationMemory once at construction; every turn passes that stored
snapshot as the conversation context of the generation request and no
turn updates it, while the raw chat history is read from the current
memory log at each turn. -/
theorem chat_uses_construction_snapshot {E : Type}
    (gen : GenRequest → Except E (List Char))
    (retrieve : List Char → List Char) (cb : PatientChatbot)
    (user_message : List Char) :
    (buildRequest retrieve cb user_message).conversation_context
        = _format_conversation_context cb
    ∧ (buildRequest retrieve cb user_message).chat_history
        = cb.memory.current_conversation
    ∧ (PatientChatbot.chat gen retrieve cb user_message).2.recent_context
        = cb.recent_context := by
  refine ⟨rfl, rfl, ?_⟩
  unfold PatientChatbot.chat
  cases gen (buildRequest retrieve cb user_message) <;> simp

/-- Substring containment is preserved by prepending text. -/
theorem containsSub_append_right (pat a b : List Char)
    (h : containsSub pat b = true) : containsSub pat (a ++ b) = true := by
  induction a with
  | nil => simpa using h
  | cons c a' ih =>
    rw [List.cons_append, containsSub]
    simp [ih]

/-- A reply keeps its warning indicator when text is prepended. -/
theorem has_warning_append_right (a b : List Char)
    (h : _has_warning b = true) : _has_warning (a ++ b) = true := by
  unfold _has_warning at h ⊢
  rw [List.any_eq_true] at h ⊢
  obtain ⟨ind, hind, hsub⟩ := h
  refine ⟨ind, hind, ?_⟩
  rw [lowerStr, List.map_append]
  exact containsSub_append_right ind _ _ hsub

/-- Every category the classifier returns is one of the six known names. -/
theorem check_for_red_flags_mem_allCategories (m : List Char) (f : String)
    (hf : f ∈ check_for_red_flags m) : f ∈ allCategories := by
  unfold check_for_red_flags at hf
  rw [List.mem_map] at hf
  obtain ⟨pr, hpr, heq⟩ := hf
  rw [List.mem_filter] at hpr
  have hmem := hpr.1
  simp only [RED_FLAG_PATTERNS, List.mem_cons, List.not_mem_nil, or_false] at hmem
  rcases hmem with h | h | h | h | h | h <;> subst h <;> subst heq <;> decide

set_option maxRecDepth 16000 in
theorem has_warning_criticalWarningText :
    _has_warning criticalWarningText = true := by decide

set_option maxRecDepth 16000 in
theorem has_warning_nonUrgentWarningText :
    _has_warning nonUrgentWarningText = true := by decide

/-- A non-empty classifier output composes to one of the two templates. -/
theorem create_warning_of_classified (m : List Char)
    (hflags : check_for_red_flags m ≠ []) :
    create_red_flag_warning (check_for_red_flags m) = criticalWarningText
    ∨ create_red_flag_warning (check_for_red_flags m) = nonUrgentWarningText := by
  obtain ⟨f, hf⟩ : ∃ f, f ∈ check_for_red_flags m := by
    cases h : check_for_red_flags m with
    | nil => exact absurd h hflags
    | cons a t => exact ⟨a, by simp [h]⟩
  have hall := check_for_red_flags_mem_allCategories m f hf
  have htier : f ∈ criticalCategories ∨ f ∈ nonUrgentCategories := by
    simp only [allCategories, List.mem_cons, List.not_mem_nil, or_false] at hall
    rcases hall with h | h | h | h | h | h <;> subst h <;> decide
  by_cases hac : ∃ x ∈ check_for_red_flags m, x ∈ criticalCategories
  · left
    simp [create_red_flag_warning, hflags, hac]
  · have hfn : f ∈ nonUrgentCategories := by
      rcases htier with hcf | hnf
      · exact absurd ⟨f, hf, hcf⟩ hac
      · exact hnf
    right
    have hnu : ∃ x ∈ check_for_red_flags m, x ∈ nonUrgentCategories := ⟨f, hf, hfn⟩
    simp [create_red_flag_warning, hflags, hac, hnu]

/-- C9: a red-flagged successful turn always produces a final reply that
contains warning language: either the deduplicated generated reply
already held an indicator phrase or the appended template supplies one. -/
theorem chat_red_flagged_reply_has_warning {E : Type}
    (gen : GenRequest → Except E (List Char))
    (retrieve : List Char → List Char) (cb : PatientChatbot)
    (user_message raw : List Char)
    (hgen : gen (buildRequest retrieve cb user_message) = Except.ok raw)
    (hflags : check_for_red_flags user_message ≠ []) :
    ∃ reply,
      (PatientChatbot.chat gen retrieve cb user_message).1 = Except.ok reply
      ∧ _has_warning reply = true := by
  rw [chat_ok_reply gen retrieve cb user_message raw hgen]
  have hempty : ¬ ((check_for_red_flags user_message).isEmpty = true) := by
    simp [List.isEmpty_iff, hflags]
  rw [if_neg hempty]
  by_cases hw : _has_warning (deduplicateWarnings raw) = true
  · rw [if_pos hw]
    exact ⟨deduplicateWarnings raw, rfl, hw⟩
  · rw [if_neg hw]
    refine ⟨_, rfl, ?_⟩
    rcases create_warning_of_classified user_message hflags with h | h <;> rw [h]
    · exact has_warning_append_right _ _ has_warning_criticalWarningText
    · exact has_warning_append_right _ _ has_warning_nonUrgentWarningText

/-- Witness for C9 at a concrete red-flagged turn. -/
theorem chat_red_flagged_reply_has_warning_witness :
    ∃ reply,
      (PatientChatbot.chat (E := Unit) (fun _ => Except.ok (toL "drink water"))
          (fun _ => []) (PatientChatbot.init ⟨[]⟩) (toL "there is a blood clot")).1
        = Except.ok reply
      ∧ _has_warning reply = true :=
  chat_red_flagged_reply_has_warning _ _ _ _ _ rfl (by decide)
